import Mathlib

/-!
Verification of the keyword-tagging / hazard-categorization / sentiment-scoring /
report-aggregation core of the DSA-PROJECT ocean-hazard analyzer.

The repository has two source variants of the core:
  * `src/scraper/web_scraper.py`  — the demo-data variant (functions embedded
    here under their Python names: `find_matching_keywords`, `categorize_hazard`,
    `analyze_sentiment`, `generate_sentiment_report`);
  * `src/scraper/web_scarper.py`  — the live-scraping variant (embedded with a
    `_v2` suffix: `categorize_hazard_v2`, `analyze_sentiment_v2`,
    `classify_raw_v2`, `get_fallback_tech_demo_tweets`).

Modelling conventions:
  * Python `str` is Lean `String`; `str.lower` maps `Char.toLower` over the
    characters, `str.strip` drops leading/trailing ASCII whitespace;
    `a in b` (substring test) is `pyIn`.
  * Python floats are modelled as rationals `ℚ` (the code only adds, scales,
    clamps and compares against decimal constants).
  * The TextBlob polarity estimator is an oracle parameter
    `String → Option ℚ`; `none` models the estimator raising an exception.
  * `random.*` engagement draws and `datetime.now()` are oracle parameters.
  * The per-instance `sentiment_cache` dict is an association list threaded
    through `analyze_sentiment` explicitly (a dict write is a cons; `lookup`
    finds the most recent binding, matching dict overwrite semantics).
-/

/-- Python `str.lower()` (per-character ASCII lowering). -/
def lowerS (s : String) : String := ⟨s.data.map Char.toLower⟩

/-- Characters removed by Python `str.strip()` with no argument. -/
def pyIsSpace (c : Char) : Bool :=
  c = ' ' || c = '\t' || c = '\n' || c = '\r' || c = Char.ofNat 11 || c = Char.ofNat 12

/-- `str.strip()` on a character list: drop whitespace at both ends. -/
def pyStripList (l : List Char) : List Char :=
  ((l.dropWhile pyIsSpace).reverse.dropWhile pyIsSpace).reverse

/-- Python `str.strip()`. -/
def pyStrip (s : String) : String := ⟨pyStripList s.data⟩

/-- Is `n` a prefix of `h`? (executable, used to build the substring test). -/
def isPrefixList : List Char → List Char → Bool
  | [], _ => true
  | _ :: _, [] => false
  | a :: as, b :: bs => a == b && isPrefixList as bs

/-- Does `n` occur as a contiguous sublist of `h`? -/
def containsSub (n : List Char) : List Char → Bool
  | [] => n.isEmpty
  | c :: t => isPrefixList n (c :: t) || containsSub n t

/-- Python `needle in haystack` on strings: substring containment. -/
def pyIn (needle haystack : String) : Bool := containsSub needle.data haystack.data

/-- The substring relation as a proposition: `needle` occurs contiguously in
`haystack`. -/
def strOccurs (needle haystack : String) : Prop :=
  ∃ l r : List Char, haystack.data = l ++ needle.data ++ r

/-- Primary hazard vocabulary (module constant `KEYWORDS`, identical in both
source variants). -/
def KEYWORDS : List String :=
  ["ocean hazard", "tsunami", "storm surge", "hurricane", "cyclone", "typhoon",
   "flood", "coastal erosion", "sea level rise", "marine pollution", "oil spill",
   "red tide", "whirlpool", "rip current", "underwater earthquake"]

/-- Extended hazard vocabulary (module constant `EXTENDED_KEYWORDS`, identical
in both source variants). -/
def EXTENDED_KEYWORDS : List String :=
  ["climate change ocean", "rising sea levels", "ocean warming", "coral bleaching",
   "marine heatwave", "coastal flooding", "beach erosion", "storm damage",
   "ocean acidification", "marine ecosystem"]

/-- `OceanHazardAnalyzer.find_matching_keywords` (same logic in both variants):
collect every entry of `KEYWORDS + EXTENDED_KEYWORDS` whose lower-casing occurs
in the lower-cased text. -/
def find_matching_keywords (text : String) : List String :=
  let text_lower := lowerS text
  (KEYWORDS ++ EXTENDED_KEYWORDS).filter fun keyword => pyIn (lowerS keyword) text_lower

/-- The `hazard_categories` dict set up in `OceanHazardAnalyzer.__init__`
(identical contents in both variants), as an association list in Python dict
insertion order. -/
def hazard_categories : List (String × List String) :=
  [("tsunami", ["tsunami", "underwater earthquake"]),
   ("storms", ["hurricane", "cyclone", "typhoon", "storm surge", "storm damage"]),
   ("flooding", ["flood", "coastal flooding", "rising sea levels"]),
   ("erosion", ["coastal erosion", "beach erosion", "sea level rise"]),
   ("pollution", ["marine pollution", "oil spill", "red tide", "ocean acidification"]),
   ("currents", ["rip current", "whirlpool"]),
   ("climate", ["climate change ocean", "ocean warming", "coral bleaching", "marine heatwave"]),
   ("general", ["ocean hazard", "marine ecosystem"])]

/-- `self.hazard_categories[c]`: the keyword list of a category. -/
def lookupCat (c : String) : List String := (hazard_categories.lookup c).getD []

/-- The `category_priority` list of `web_scraper.py`'s `categorize_hazard`
(note: `pollution` before `erosion`, unlike dict insertion order). -/
def category_priority : List String :=
  ["tsunami", "storms", "flooding", "pollution", "erosion", "currents", "climate", "general"]

/-- `OceanHazardAnalyzer.categorize_hazard` of `web_scraper.py`: lower the
matched keywords, walk `category_priority`, and return the first category one
of whose keywords occurs as a substring of some matched keyword; `"general"`
for a non-empty no-hit list, `"unknown"` for an empty list. -/
def categorize_hazard (keywords : List String) : String :=
  let keyword_lower := keywords.map lowerS
  match category_priority.find? (fun category =>
      (lookupCat category).any fun cat_keyword =>
        keyword_lower.any fun kw => pyIn (lowerS cat_keyword) kw) with
  | some category => category
  | none => if keywords.isEmpty then "unknown" else "general"

/-- `OceanHazardAnalyzer.categorize_hazard` of `web_scarper.py`: walk the
`hazard_categories` dict in insertion order and return the first category whose
keyword list contains (exact membership) one of the matched keywords;
`"general"` otherwise. -/
def categorize_hazard_v2 (keywords : List String) : String :=
  match hazard_categories.find? (fun p => keywords.any fun kw => p.2.contains kw) with
  | some p => p.1
  | none => "general"

/-- The claim's hit condition, in its own words: some matched keyword contains
one of the category's keywords as a case-insensitive substring. -/
def specHit (category : String) (matched : List String) : Bool :=
  matched.any fun kw => (lookupCat category).any fun ck => pyIn (lowerS ck) (lowerS kw)

/-- The categorizer as the claim describes it: the first category of the fixed
priority order with a hit, `"general"` when none hits. -/
def categorize_spec (matched : List String) : String :=
  (category_priority.find? fun category => specHit category matched).getD "general"

/-- A sentiment result: (polarity score, label, confidence). -/
abbrev SentimentTriple := ℚ × String × ℚ

/-- The analyzer's `sentiment_cache` dict, keyed by normalized text. -/
structure SentimentState where
  cache : List (String × SentimentTriple)
deriving DecidableEq

/-- The fresh cache built in `OceanHazardAnalyzer.__init__`. -/
def initState : SentimentState := ⟨[]⟩

/-- The cache key `text.lower().strip()`. -/
def normKey (text : String) : String := pyStrip (lowerS text)

/-- Python `max(a, b)` (kernel-reducible; returns the first argument among
equals). -/
def pyMax (a b : ℚ) : ℚ := if a < b then b else a

/-- Python `min(a, b)` (kernel-reducible; returns the first argument among
equals). -/
def pyMin (a b : ℚ) : ℚ := if b < a then b else a

/-- Python `abs(x)` (kernel-reducible). -/
def pyAbs (x : ℚ) : ℚ := if x < 0 then -x else x

/-- `max(-1.0, min(1.0, p))`. -/
def clamp (x : ℚ) : ℚ := pyMax (-1) (pyMin 1 x)

/-- `sum(1 for word in ws if word in text.lower())`: how many lexicon words are
present in the lowered text (a presence count, each word at most once). -/
def boostCount (ws : List String) (text : String) : ℕ :=
  (ws.filter fun word => pyIn word (lowerS text)).length

/-- `disaster_negative` of `web_scraper.py` (includes "urgent"). -/
def disaster_negative : List String :=
  ["disaster", "devastation", "destroyed", "catastrophic", "emergency", "urgent",
   "crisis", "collapse", "dying", "death", "evacuation"]

/-- `disaster_positive` of `web_scraper.py` (includes "amazing", "incredible",
"working"). -/
def disaster_positive : List String :=
  ["restored", "recovery", "saved", "protection", "resilient", "amazing",
   "incredible", "hope", "success", "working"]

/-- `disaster_negative` of `web_scarper.py` (no "urgent"). -/
def disaster_negative_v2 : List String :=
  ["disaster", "devastation", "destroyed", "catastrophic", "emergency",
   "crisis", "collapse", "dying", "death", "evacuation"]

/-- `disaster_positive` of `web_scarper.py`. -/
def disaster_positive_v2 : List String :=
  ["restored", "recovery", "saved", "protection", "resilient", "hope", "success"]

/-- The shared success-path computation of both `analyze_sentiment` variants:
lexicon adjustment of the base polarity, clamping, threshold labelling and the
confidence formula (the lexicons, thresholds and formula are parameters). -/
def computeTriple (negL posL : List String) (thrPos thrNeg : ℚ) (confF : ℚ → ℚ)
    (base : ℚ) (text : String) : SentimentTriple :=
  let negative_boost : ℕ := boostCount negL text
  let positive_boost : ℕ := boostCount posL text
  let polarity := clamp (base + positive_boost * (2/10) - negative_boost * (3/10))
  (polarity,
   if polarity > thrPos then "positive" else if polarity < thrNeg then "negative" else "neutral",
   confF polarity)

/-- The success-path triple of `web_scraper.py`'s `analyze_sentiment`:
thresholds ±0.15, confidence `min(|polarity| + 0.2, 1.0)`. -/
def demoTriple (base : ℚ) (text : String) : SentimentTriple :=
  computeTriple disaster_negative disaster_positive (15/100) (-(15/100))
    (fun p => pyMin (pyAbs p + 2/10) 1) base text

/-- The success-path triple of `web_scarper.py`'s `analyze_sentiment`:
thresholds ±0.1, confidence `min(|polarity| * 1.5, 1.0)`. -/
def v2Triple (base : ℚ) (text : String) : SentimentTriple :=
  computeTriple disaster_negative_v2 disaster_positive_v2 (1/10) (-(1/10))
    (fun p => pyMin (pyAbs p * (3/2)) 1) base text

/-- `OceanHazardAnalyzer.analyze_sentiment` of `web_scraper.py`: cache lookup on
the normalized key; on a miss, run the estimator inside try/except — an
estimator exception (`none`) yields the fixed fallback triple
`(-0.2, "negative", 0.6)` without caching; on success the computed triple is
stored in the cache and returned. -/
def analyze_sentiment (estimator : String → Option ℚ) (st : SentimentState)
    (text : String) : SentimentTriple × SentimentState :=
  match st.cache.lookup (normKey text) with
  | some cached => (cached, st)
  | none =>
    match estimator text with
    | none => ((-(2/10), "negative", 6/10), st)
    | some base =>
      (demoTriple base text, ⟨(normKey text, demoTriple base text) :: st.cache⟩)

/-- `OceanHazardAnalyzer.analyze_sentiment` of `web_scarper.py`: no try/except —
an estimator exception propagates (result `none`); on success the triple is
stored and returned. -/
def analyze_sentiment_v2 (estimator : String → Option ℚ) (st : SentimentState)
    (text : String) : Option (SentimentTriple × SentimentState) :=
  match st.cache.lookup (normKey text) with
  | some cached => some (cached, st)
  | none =>
    match estimator text with
    | none => none
    | some base =>
      some (v2Triple base text, ⟨(normKey text, v2Triple base text) :: st.cache⟩)

/-- A raw scraped post, as handed to the classification loop of
`web_scarper.py`'s `search_ocean_hazards` (the dict produced by the scraping
collaborators). -/
structure RawTweet where
  username : String
  handle : String
  content : String
  timestamp : String
  retweets : ℕ
  likes : ℕ
  replies : ℕ
  tweet_id : String
  verified : Bool
  source : String
deriving DecidableEq

/-- The `OceanHazardTweet` dataclass (union of both variants' fields;
`location`/`verified` only exist in `web_scarper.py` and default as there). -/
structure OceanHazardTweet where
  username : String
  handle : String
  content : String
  timestamp : String
  retweets : ℕ
  likes : ℕ
  replies : ℕ
  tweet_id : String
  matched_keywords : List String
  sentiment_score : ℚ
  sentiment_label : String
  confidence : ℚ
  hazard_category : String
  source : String
  location : Option String := none
  verified : Bool := false
deriving DecidableEq

/-- The per-tweet body of `web_scarper.py`'s `search_ocean_hazards` loop:
match keywords; a post with no match is skipped; otherwise score sentiment
(an estimator exception aborts the post — it is caught by the surrounding
per-keyword try/except, so no post is produced) and categorize, then assemble
the `OceanHazardTweet`. -/
def classify_raw_v2 (estimator : String → Option ℚ) (st : SentimentState)
    (raw : RawTweet) : Option OceanHazardTweet × SentimentState :=
  let matched_keywords := find_matching_keywords raw.content
  if matched_keywords.isEmpty then (none, st)
  else
    match analyze_sentiment_v2 estimator st raw.content with
    | none => (none, st)
    | some ((s, l, c), st2) =>
      (some { username := raw.username, handle := raw.handle, content := raw.content,
              timestamp := raw.timestamp, retweets := raw.retweets, likes := raw.likes,
              replies := raw.replies, tweet_id := raw.tweet_id,
              matched_keywords := matched_keywords, sentiment_score := s,
              sentiment_label := l, confidence := c,
              hazard_category := categorize_hazard_v2 matched_keywords,
              source := raw.source, verified := raw.verified }, st2)

/-- One entry of the `demo_data` list in `web_scarper.py`'s
`get_fallback_tech_demo_tweets`. -/
structure FallbackSeed where
  content : String
  username : String
  handle : String
  keywords : List String
  category : String
deriving DecidableEq

/-- The `demo_data` literal of `get_fallback_tech_demo_tweets`
(`web_scarper.py`, tech/space themed, no ocean keywords). -/
def fallback_demo_data : List FallbackSeed :=
  [{ content := "🚀 SpaceX successfully launched 60 more Starlink satellites! Global internet coverage expanding rapidly. The future is here! #SpaceX #Technology",
     username := "SpaceFan2024", handle := "spacefan2024", keywords := [], category := "tech" },
   { content := "AI breakthrough: New machine learning model achieves 99% accuracy in medical diagnosis. Healthcare will never be the same! 🏥💡 #AI #HealthTech",
     username := "TechNews", handle := "technews", keywords := [], category := "tech" },
   { content := "Crypto market is crashing again 📉 Bitcoin down 15% today. HODL or sell? This volatility is insane! #Bitcoin #Crypto",
     username := "CryptoTrader", handle := "cryptotrader", keywords := [], category := "finance" },
   { content := "Just tried the new iPhone 15 Pro Max camera. The photo quality is absolutely incredible! Apple keeps raising the bar 📸✨ #iPhone15 #Photography",
     username := "TechReviewer", handle := "techreviewer", keywords := [], category := "tech" },
   { content := "Electric vehicle sales surged 40% this quarter! Tesla, Ford, and GM leading the charge. Goodbye gas stations! ⚡🚗 #EV #CleanEnergy",
     username := "GreenTech", handle := "greentech", keywords := [], category := "eco" }]

/-- One draw of the `random.*` engagement values used per fallback tweet. -/
structure EngagementDraw where
  retweets : ℕ
  likes : ℕ
  replies : ℕ
  verified : Bool
deriving DecidableEq

/-- `f"fallback_{i:03d}"`. -/
def pad3 (n : ℕ) : String :=
  if n < 10 then "00" ++ toString n else if n < 100 then "0" ++ toString n else toString n

/-- The enumerated loop body of `get_fallback_tech_demo_tweets`: score each demo
content (an estimator exception propagates — there is no try/except here) and
build the tweet with the hand-written `keywords`/`category` fields. -/
def buildFallback (estimator : String → Option ℚ) (draws : ℕ → EngagementDraw)
    (now : String) : ℕ → SentimentState → List FallbackSeed →
    Option (List OceanHazardTweet × SentimentState)
  | _, st, [] => some ([], st)
  | i, st, d :: ds =>
    match analyze_sentiment_v2 estimator st d.content with
    | none => none
    | some ((s, l, c), st2) =>
      match buildFallback estimator draws now (i + 1) st2 ds with
      | none => none
      | some (ts, st3) =>
        some ({ username := d.username, handle := d.handle, content := d.content,
                timestamp := now, retweets := (draws i).retweets,
                likes := (draws i).likes, replies := (draws i).replies,
                tweet_id := "fallback_" ++ pad3 (i + 1),
                matched_keywords := d.keywords, sentiment_score := s,
                sentiment_label := l, confidence := c,
                hazard_category := d.category, source := "FALLBACK_DEMO",
                verified := (draws i).verified } :: ts, st3)

/-- `OceanHazardAnalyzer.get_fallback_tech_demo_tweets` of `web_scarper.py`. -/
def get_fallback_tech_demo_tweets (estimator : String → Option ℚ)
    (draws : ℕ → EngagementDraw) (now : String) (st : SentimentState) :
    Option (List OceanHazardTweet × SentimentState) :=
  buildFallback estimator draws now 0 st fallback_demo_data

/-- Keys of a list in first-encounter order (Python dict / `Counter` key
order). -/
def firstDedup : List String → List String
  | [] => []
  | a :: l => a :: (firstDedup l).filter (fun b => b != a)

/-- `dict(Counter(l))`: each distinct element in first-encounter order with its
number of occurrences. -/
def counter (l : List String) : List (String × ℕ) :=
  (firstDedup l).map fun k => (k, l.count k)

/-- Stable insertion (descending by count) for `Counter.most_common`. -/
def insertCountDesc (x : String × ℕ) : List (String × ℕ) → List (String × ℕ)
  | [] => [x]
  | y :: ys => if x.2 < y.2 then y :: insertCountDesc x ys else x :: y :: ys

/-- Stable descending sort by count. -/
def sortCountDesc : List (String × ℕ) → List (String × ℕ)
  | [] => []
  | x :: xs => insertCountDesc x (sortCountDesc xs)

/-- `Counter(l).most_common(n)`. -/
def most_common (n : ℕ) (c : List (String × ℕ)) : List (String × ℕ) :=
  (sortCountDesc c).take n

/-- Python `min(iterable, key=f)`: first element with minimal key. -/
def pyMinBy {α : Type} [LinearOrder α] (f : OceanHazardTweet → α) :
    OceanHazardTweet → List OceanHazardTweet → OceanHazardTweet
  | best, [] => best
  | best, t :: ts => pyMinBy f (if f t < f best then t else best) ts

/-- Python `max(iterable, key=f)`: first element with maximal key. -/
def pyMaxBy {α : Type} [LinearOrder α] (f : OceanHazardTweet → α) :
    OceanHazardTweet → List OceanHazardTweet → OceanHazardTweet
  | best, [] => best
  | best, t :: ts => pyMaxBy f (if f best < f t then t else best) ts

/-- Python `round(x, d)` on the rational model (round half up at the `d`-th
decimal; the binary-float tie behaviour of CPython is not modelled). -/
def roundTo (d : ℕ) (x : ℚ) : ℚ := ((x * 10 ^ d + 1/2).floor : ℚ) / 10 ^ d

/-- The `avg_engagement` sub-dict of a category entry (`web_scraper.py`). -/
structure EngagementAvg where
  likes : ℚ
  retweets : ℚ
  replies : ℚ
deriving DecidableEq

/-- One `categories[category]` entry of `generate_sentiment_report`
(`web_scraper.py`). -/
structure CategoryStats where
  total_tweets : ℕ
  sentiment_distribution : List (String × ℕ)
  avg_sentiment_score : ℚ
  avg_engagement : EngagementAvg
deriving DecidableEq

/-- The `summary` block of the report (`web_scraper.py`). -/
structure ReportSummary where
  total_tweets : ℕ
  sentiment_distribution : List (String × ℕ)
  avg_sentiment_score : ℚ
  total_likes : ℕ
  total_retweets : ℕ
  total_replies : ℕ
deriving DecidableEq

/-- A `notable_tweets` entry for min/max sentiment (`web_scraper.py`). -/
structure NotableTweet where
  content : String
  score : ℚ
  category : String
  handle : String
deriving DecidableEq

/-- The `most_engaging` notable entry (`web_scraper.py`). -/
structure NotableEngaging where
  content : String
  likes : ℕ
  retweets : ℕ
  category : String
  handle : String
deriving DecidableEq

/-- The full report dict of `web_scraper.py`'s `generate_sentiment_report`. -/
structure Report where
  summary : ReportSummary
  by_hazard_category : List (String × CategoryStats)
  top_keywords : List (String × ℕ)
  most_negative : NotableTweet
  most_positive : NotableTweet
  most_engaging : NotableEngaging
deriving DecidableEq

/-- The aggregator's result: the distinguished `{"error": "No tweets to
analyze"}` value for an empty corpus, or a report. -/
inductive ReportResult where
  | noData
  | report (r : Report)
deriving DecidableEq

/-- The per-category stats built inside the `for category in set(...)` loop of
`generate_sentiment_report` (`web_scraper.py`). -/
def categoryStats (cat_tweets : List OceanHazardTweet) : CategoryStats :=
  { total_tweets := cat_tweets.length,
    sentiment_distribution := counter (cat_tweets.map OceanHazardTweet.sentiment_label),
    avg_sentiment_score :=
      roundTo 3 ((cat_tweets.map OceanHazardTweet.sentiment_score).sum / cat_tweets.length),
    avg_engagement :=
      { likes := roundTo 1 ((cat_tweets.map fun t => (t.likes : ℚ)).sum / cat_tweets.length),
        retweets := roundTo 1 ((cat_tweets.map fun t => (t.retweets : ℚ)).sum / cat_tweets.length),
        replies := roundTo 1 ((cat_tweets.map fun t => (t.replies : ℚ)).sum / cat_tweets.length) } }

/-- The report built by `generate_sentiment_report` (`web_scraper.py`) for a
non-empty tweet list `t0 :: rest`. Python's `set(...)` iteration order is
unspecified; category entries are modelled in first-encounter order (the
claims about the breakdown are membership statements, insensitive to order). -/
def buildReport (t0 : OceanHazardTweet) (rest : List OceanHazardTweet) : Report :=
  let tweets := t0 :: rest
  { summary :=
      { total_tweets := tweets.length,
        sentiment_distribution := counter (tweets.map OceanHazardTweet.sentiment_label),
        avg_sentiment_score :=
          roundTo 3 ((tweets.map OceanHazardTweet.sentiment_score).sum / tweets.length),
        total_likes := (tweets.map OceanHazardTweet.likes).sum,
        total_retweets := (tweets.map OceanHazardTweet.retweets).sum,
        total_replies := (tweets.map OceanHazardTweet.replies).sum },
    by_hazard_category :=
      (firstDedup (tweets.map OceanHazardTweet.hazard_category)).map fun category =>
        (category, categoryStats (tweets.filter fun t => t.hazard_category == category)),
    top_keywords := most_common 15 (counter ((tweets.map OceanHazardTweet.matched_keywords).flatten)),
    most_negative :=
      (fun t => { content := t.content, score := t.sentiment_score,
                  category := t.hazard_category, handle := t.handle })
        (pyMinBy OceanHazardTweet.sentiment_score t0 rest),
    most_positive :=
      (fun t => { content := t.content, score := t.sentiment_score,
                  category := t.hazard_category, handle := t.handle })
        (pyMaxBy OceanHazardTweet.sentiment_score t0 rest),
    most_engaging :=
      (fun t => { content := t.content, likes := t.likes, retweets := t.retweets,
                  category := t.hazard_category, handle := t.handle })
        (pyMaxBy (fun t => t.likes + t.retweets) t0 rest) }

/-- `OceanHazardAnalyzer.generate_sentiment_report` (`web_scraper.py`):
the distinguished no-data value on `[]`, otherwise the full report. -/
def generate_sentiment_report (tweets : List OceanHazardTweet) : ReportResult :=
  match tweets with
  | [] => ReportResult.noData
  | t0 :: rest => ReportResult.report (buildReport t0 rest)

/-- Label/score coherence of a sentiment triple at thresholds
`thrPos`/`thrNeg`. -/
def tripleLabelOK (thrPos thrNeg : ℚ) (r : SentimentTriple) : Prop :=
  (r.2.1 = "positive" ↔ thrPos < r.1) ∧ (r.2.1 = "negative" ↔ r.1 < thrNeg)
  ∧ (r.2.1 = "neutral" ↔ thrNeg ≤ r.1 ∧ r.1 ≤ thrPos)

/-- Every cached triple is label/score coherent. -/
def cacheLabelOK (thrPos thrNeg : ℚ) (st : SentimentState) : Prop :=
  ∀ e ∈ st.cache, tripleLabelOK thrPos thrNeg e.2

/-- Score within [-1, 1] and confidence within [0, 1]. -/
def tripleRangeOK (r : SentimentTriple) : Prop :=
  -1 ≤ r.1 ∧ r.1 ≤ 1 ∧ 0 ≤ r.2.2 ∧ r.2.2 ≤ 1

/-- Every cached triple is within range. -/
def cacheRangeOK (st : SentimentState) : Prop :=
  ∀ e ∈ st.cache, tripleRangeOK e.2

/-- Every cached confidence is at least 0.2 (demo-variant floor). -/
def cacheConfOK (st : SentimentState) : Prop :=
  ∀ e ∈ st.cache, 1/5 ≤ e.2.2.2

/-- A concrete always-succeeding estimator (base polarity 0). -/
def estC : String → Option ℚ := fun _ => some 0

/-- A concrete estimator with a different base polarity. -/
def estC2 : String → Option ℚ := fun _ => some (1/2)

/-- A concrete always-failing estimator (models TextBlob raising). -/
def estFail : String → Option ℚ := fun _ => none

/-- A concrete engagement-draw oracle. -/
def drawsC : ℕ → EngagementDraw := fun _ => ⟨0, 0, 0, false⟩

/-- A concrete raw post whose content mentions a hazard keyword. -/
def rawC : RawTweet :=
  { username := "u", handle := "h", content := "tsunami warning", timestamp := "t",
    retweets := 0, likes := 0, replies := 0, tweet_id := "id1",
    verified := false, source := "NITTER_SCRAPE" }

/-- The tweet `classify_raw_v2 estC initState rawC` produces. -/
def tC : OceanHazardTweet :=
  { username := "u", handle := "h", content := "tsunami warning", timestamp := "t",
    retweets := 0, likes := 0, replies := 0, tweet_id := "id1",
    matched_keywords := ["tsunami"], sentiment_score := 0,
    sentiment_label := "neutral", confidence := 0, hazard_category := "tsunami",
    source := "NITTER_SCRAPE", verified := false }

/-- A concrete annotated post with a neutral label (aggregator inputs). -/
def demoTweet : OceanHazardTweet :=
  { username := "a", handle := "a", content := "c", timestamp := "t",
    retweets := 2, likes := 10, replies := 1, tweet_id := "x1",
    matched_keywords := ["flood"], sentiment_score := -(1/20),
    sentiment_label := "neutral", confidence := 1/4,
    hazard_category := "flooding", source := "DEMO_DATA" }

theorem isPrefixList_iff : ∀ n h : List Char, isPrefixList n h = true ↔ ∃ r, h = n ++ r
  | [], h => by simp [isPrefixList]
  | a :: as, [] => by simp [isPrefixList]
  | a :: as, b :: bs => by
    simp only [isPrefixList, Bool.and_eq_true, beq_iff_eq, isPrefixList_iff as bs,
      List.cons_append, List.cons.injEq]
    constructor
    · rintro ⟨rfl, r, rfl⟩
      exact ⟨r, rfl, rfl⟩
    · rintro ⟨r, rfl, rfl⟩
      exact ⟨rfl, r, rfl⟩

theorem containsSub_iff (n : List Char) : ∀ h : List Char,
    containsSub n h = true ↔ ∃ l r, h = l ++ n ++ r
  | [] => by
    simp only [containsSub, List.isEmpty_iff]
    constructor
    · rintro rfl
      exact ⟨[], [], rfl⟩
    · rintro ⟨l, r, hl⟩
      have h2 := hl.symm
      rw [List.append_eq_nil, List.append_eq_nil] at h2
      exact h2.1.2
  | c :: t => by
    simp only [containsSub, Bool.or_eq_true, isPrefixList_iff, containsSub_iff n t]
    constructor
    · rintro (⟨r, hr⟩ | ⟨l, r, hr⟩)
      · exact ⟨[], r, by simpa using hr⟩
      · exact ⟨c :: l, r, by simp [hr]⟩
    · rintro ⟨l, r, hr⟩
      cases l with
      | nil => exact Or.inl ⟨r, by simpa using hr⟩
      | cons a l =>
        simp only [List.cons_append, List.cons.injEq] at hr
        exact Or.inr ⟨l, r, hr.2⟩

theorem pyIn_iff (needle haystack : String) :
    pyIn needle haystack = true ↔ strOccurs needle haystack :=
  containsSub_iff needle.data haystack.data

/-- C1: for every input text, `find_matching_keywords` returns exactly the
vocabulary entries (primary keywords followed by extended keywords, in that
fixed vocabulary order) whose lower-casing occurs in the lower-cased text, each
at most once; empty text, and any text with no vocabulary substring, gives the
empty list rather than an error. -/
theorem C1_keyword_matcher (text : String) :
    find_matching_keywords text
        = KEYWORDS.filter (fun kw => pyIn (lowerS kw) (lowerS text))
          ++ EXTENDED_KEYWORDS.filter (fun kw => pyIn (lowerS kw) (lowerS text))
    ∧ List.Sublist (find_matching_keywords text) (KEYWORDS ++ EXTENDED_KEYWORDS)
    ∧ (∀ kw : String, kw ∈ find_matching_keywords text
        ↔ kw ∈ KEYWORDS ++ EXTENDED_KEYWORDS ∧ strOccurs (lowerS kw) (lowerS text))
    ∧ (find_matching_keywords text).Nodup
    ∧ find_matching_keywords "" = []
    ∧ (find_matching_keywords text = []
        ↔ ∀ kw ∈ KEYWORDS ++ EXTENDED_KEYWORDS, ¬ strOccurs (lowerS kw) (lowerS text)) := by
  simp only [find_matching_keywords]
  refine ⟨List.filter_append _ _, List.filter_sublist _, fun kw => ?_,
    (List.filter_sublist _).nodup (by decide), by decide, ?_⟩
  · rw [List.mem_filter]
    exact and_congr_right fun _ => pyIn_iff _ _
  · rw [List.filter_eq_nil_iff]
    exact forall_congr' fun kw => forall_congr' fun _ => not_congr (pyIn_iff _ _)

theorem any_swap {α β : Type} (l : List α) (m : List β) (p : α → β → Bool) :
    (l.any fun a => m.any fun b => p a b) = (m.any fun b => l.any fun a => p a b) := by
  rw [Bool.eq_iff_iff]
  simp only [List.any_eq_true]
  constructor
  · rintro ⟨a, ha, b, hb, hp⟩
    exact ⟨b, hb, a, ha, hp⟩
  · rintro ⟨b, hb, a, ha, hp⟩
    exact ⟨a, ha, b, hb, hp⟩

/-- C2 (amended): for every non-empty matched-keyword list, the
`web_scraper.py` categorizer agrees with the claim's description
(`categorize_spec`): scan `category_priority` in order, a category is hit when
some matched keyword contains one of its keywords as a case-insensitive
substring, return the first hit (`"general"` when keywords exist but none
hits). The `web_scarper.py` variant scans in dict insertion order with exact
membership instead; see the counterexample. -/
theorem C2_categorizer_priority (matched : List String) (h : matched ≠ []) :
    categorize_hazard matched = categorize_spec matched := by
  simp only [categorize_hazard, categorize_spec]
  have hp : (fun category =>
        (lookupCat category).any fun cat_keyword =>
          (matched.map lowerS).any fun kw => pyIn (lowerS cat_keyword) kw)
      = fun category => specHit category matched := by
    funext c
    rw [specHit, any_swap]
    simp only [List.any_map]
    rfl
  rw [hp]
  cases hf : category_priority.find? fun category => specHit category matched with
  | some c => rfl
  | none =>
    simp only [Option.getD_none, List.isEmpty_iff]
    rw [if_neg h]

/-- C2 counterexample: on the matched keywords `["coastal erosion", "oil
spill"]` (both vocabulary entries), the claim's scan (priority order, substring
hit) yields `"pollution"`, but the `web_scarper.py` categorizer returns
`"erosion"` — it scans the dict in insertion order (`erosion` before
`pollution`) and tests exact membership, so the claim is false of that
variant. -/
theorem C2_categorizer_counterexample :
    categorize_hazard_v2 ["coastal erosion", "oil spill"] = "erosion"
    ∧ categorize_spec ["coastal erosion", "oil spill"] = "pollution"
    ∧ ("erosion" : String) ≠ "pollution" := by
  refine ⟨by decide, by decide, by decide⟩

theorem C2_categorizer_priority_witness :
    categorize_hazard ["storm surge", "flood"] = categorize_spec ["storm surge", "flood"] :=
  C2_categorizer_priority ["storm surge", "flood"] (by decide)

theorem categorize_v2_mem_closed (kws : List String) :
    categorize_hazard_v2 kws ∈ category_priority := by
  unfold categorize_hazard_v2
  cases hf : hazard_categories.find? (fun p => kws.any fun kw => p.2.contains kw) with
  | none => decide
  | some p =>
    have hm := List.mem_of_find?_eq_some hf
    simp only [hazard_categories, List.mem_cons, List.not_mem_nil, or_false] at hm
    rcases hm with rfl | rfl | rfl | rfl | rfl | rfl | rfl | rfl <;> decide

theorem classify_v2_fields (est : String → Option ℚ) (st : SentimentState)
    (raw : RawTweet) (t : OceanHazardTweet)
    (h : (classify_raw_v2 est st raw).1 = some t) :
    t.matched_keywords = find_matching_keywords raw.content
    ∧ t.hazard_category = categorize_hazard_v2 (find_matching_keywords raw.content) := by
  simp only [classify_raw_v2] at h
  split at h
  · simp at h
  · split at h
    · simp at h
    · next s l c st2 heq =>
      simp only [Option.some.injEq] at h
      rw [← h]
      exact ⟨rfl, rfl⟩

/-- C3 (amended): every `OceanHazardTweet` the live classification pipeline of
`web_scarper.py` produces carries `hazard_category = categorize_hazard_v2
matched_keywords`, a label of the closed category set; hence two pipeline posts
with the same matched-keyword list carry the same category. The posts
fabricated by that file's fallback demo path violate both parts of the claim;
see the counterexample. -/
theorem C3_category_closed_deterministic (est est2 : String → Option ℚ)
    (st st2 : SentimentState) (raw raw2 : RawTweet) (t t2 : OceanHazardTweet)
    (h : (classify_raw_v2 est st raw).1 = some t)
    (h2 : (classify_raw_v2 est2 st2 raw2).1 = some t2) :
    t.hazard_category = categorize_hazard_v2 t.matched_keywords
    ∧ t.hazard_category ∈ category_priority
    ∧ (t.matched_keywords = t2.matched_keywords → t.hazard_category = t2.hazard_category) := by
  obtain ⟨hk, hc⟩ := classify_v2_fields est st raw t h
  obtain ⟨hk2, hc2⟩ := classify_v2_fields est2 st2 raw2 t2 h2
  refine ⟨by rw [hc, hk], ?_, ?_⟩
  · rw [hc]
    exact categorize_v2_mem_closed _
  · intro hkk
    rw [hc, hc2, ← hk, ← hk2, hkk]

theorem C3_category_closed_deterministic_witness :
    tC.hazard_category = categorize_hazard_v2 tC.matched_keywords
    ∧ tC.hazard_category ∈ category_priority
    ∧ (tC.matched_keywords = tC.matched_keywords → tC.hazard_category = tC.hazard_category) :=
  C3_category_closed_deterministic estC estC initState initState rawC rawC tC tC
    (by with_unfolding_all decide) (by with_unfolding_all decide)

/-- C3 counterexample: `get_fallback_tech_demo_tweets` (run with a concrete
estimator and engagement oracle) produces five AnnotatedPosts whose
`(matched_keywords, hazard_category)` pairs are as listed: `"tech"` is not in
the closed §4.2 category set, and the first and third posts have identical
(empty) `matched_keywords` but different categories (`"tech"` vs `"finance"`),
so `hazard_category` is not a function of `matched_keywords` on these
outputs. -/
theorem C3_fallback_counterexample :
    ((get_fallback_tech_demo_tweets estC drawsC "now" initState).map
        fun p => p.1.map fun t => (t.matched_keywords, t.hazard_category))
      = some [([], "tech"), ([], "tech"), ([], "finance"), ([], "tech"), ([], "eco")]
    ∧ ("tech" : String) ∉ category_priority
    ∧ ("tech" : String) ≠ "finance" := by
  refine ⟨by with_unfolding_all decide, by decide, by decide⟩

theorem lookup_mem {β : Type} {k : String} {v : β} {es : List (String × β)}
    (h : es.lookup k = some v) : (k, v) ∈ es := by
  rcases List.lookup_eq_some_iff.mp h with ⟨l1, l2, rfl, -⟩
  simp

theorem analyze_hit (est : String → Option ℚ) (st : SentimentState) (text : String)
    (r : SentimentTriple) (h : st.cache.lookup (normKey text) = some r) :
    analyze_sentiment est st text = (r, st) := by
  unfold analyze_sentiment
  rw [h]

theorem analyze_fallback (est : String → Option ℚ) (st : SentimentState) (text : String)
    (h1 : st.cache.lookup (normKey text) = none) (h2 : est text = none) :
    analyze_sentiment est st text = ((-(2/10), "negative", 6/10), st) := by
  unfold analyze_sentiment
  rw [h1, h2]

theorem analyze_miss (est : String → Option ℚ) (st : SentimentState) (text : String)
    (base : ℚ) (h1 : st.cache.lookup (normKey text) = none) (h2 : est text = some base) :
    analyze_sentiment est st text
      = (demoTriple base text, ⟨(normKey text, demoTriple base text) :: st.cache⟩) := by
  unfold analyze_sentiment
  rw [h1, h2]

theorem analyze_v2_hit (est : String → Option ℚ) (st : SentimentState) (text : String)
    (r : SentimentTriple) (h : st.cache.lookup (normKey text) = some r) :
    analyze_sentiment_v2 est st text = some (r, st) := by
  unfold analyze_sentiment_v2
  rw [h]

theorem analyze_v2_fail (est : String → Option ℚ) (st : SentimentState) (text : String)
    (h1 : st.cache.lookup (normKey text) = none) (h2 : est text = none) :
    analyze_sentiment_v2 est st text = none := by
  unfold analyze_sentiment_v2
  rw [h1, h2]

theorem analyze_v2_miss (est : String → Option ℚ) (st : SentimentState) (text : String)
    (base : ℚ) (h1 : st.cache.lookup (normKey text) = none) (h2 : est text = some base) :
    analyze_sentiment_v2 est st text
      = some (v2Triple base text, ⟨(normKey text, v2Triple base text) :: st.cache⟩) := by
  unfold analyze_sentiment_v2
  rw [h1, h2]

theorem computeTriple_labelOK (negL posL : List String) (thrPos thrNeg : ℚ)
    (confF : ℚ → ℚ) (base : ℚ) (text : String) (hth : thrNeg ≤ thrPos) :
    tripleLabelOK thrPos thrNeg (computeTriple negL posL thrPos thrNeg confF base text) := by
  unfold tripleLabelOK computeTriple
  dsimp only
  split_ifs with h1 h2
  · exact ⟨iff_of_true rfl h1, iff_of_false (by decide) (by intro hcon; linarith),
      iff_of_false (by decide) (by intro hcon; linarith [hcon.2])⟩
  · exact ⟨iff_of_false (by decide) (by intro hcon; linarith),
      iff_of_true rfl h2,
      iff_of_false (by decide) (by intro hcon; linarith [hcon.1])⟩
  · exact ⟨iff_of_false (by decide) h1, iff_of_false (by decide) h2,
      iff_of_true rfl ⟨le_of_not_lt h2, le_of_not_lt h1⟩⟩

theorem clamp_range (x : ℚ) : -1 ≤ clamp x ∧ clamp x ≤ 1 := by
  unfold clamp pyMax pyMin
  split_ifs <;> constructor <;> linarith

theorem computeTriple_score (negL posL : List String) (thrPos thrNeg : ℚ)
    (confF : ℚ → ℚ) (base : ℚ) (text : String) :
    (computeTriple negL posL thrPos thrNeg confF base text).1
      = clamp (base + (boostCount posL text : ℚ) * (2/10) - (boostCount negL text : ℚ) * (3/10)) :=
  rfl

theorem computeTriple_conf (negL posL : List String) (thrPos thrNeg : ℚ)
    (confF : ℚ → ℚ) (base : ℚ) (text : String) :
    (computeTriple negL posL thrPos thrNeg confF base text).2.2
      = confF (computeTriple negL posL thrPos thrNeg confF base text).1 :=
  rfl

theorem demoConf_bounds (p : ℚ) :
    1/5 ≤ pyMin (pyAbs p + 2/10) 1 ∧ pyMin (pyAbs p + 2/10) 1 ≤ 1 := by
  unfold pyMin pyAbs
  split_ifs <;> constructor <;> linarith

theorem v2Conf_bounds (p : ℚ) :
    0 ≤ pyMin (pyAbs p * (3/2)) 1 ∧ pyMin (pyAbs p * (3/2)) 1 ≤ 1 := by
  unfold pyMin pyAbs
  split_ifs <;> constructor <;> linarith

theorem fallback_labelOK : tripleLabelOK (15/100) (-(15/100)) (-(2/10), "negative", 6/10) :=
  ⟨iff_of_false (by decide) (by norm_num), iff_of_true rfl (by norm_num),
   iff_of_false (by decide) (by rintro ⟨hcon, -⟩; norm_num at hcon)⟩

/-- C4: every triple the sentiment scorer returns is label/score coherent —
label `"positive"` iff the score exceeds the positive threshold, `"negative"`
iff it is below the negative threshold, `"neutral"` otherwise — at the
`web_scraper.py` thresholds ±0.15 (first conjunct, including the exception
fallback and cache hits, given a coherent cache) and at the `web_scarper.py`
thresholds ±0.1 (second conjunct); in both variants the cache stays coherent,
so every AnnotatedPost built from these triples satisfies the invariant. -/
theorem C4_label_coherence (est : String → Option ℚ) (st st2 : SentimentState)
    (text : String) (hc : cacheLabelOK (15/100) (-(15/100)) st)
    (hc2 : cacheLabelOK (1/10) (-(1/10)) st2) :
    (tripleLabelOK (15/100) (-(15/100)) (analyze_sentiment est st text).1
      ∧ cacheLabelOK (15/100) (-(15/100)) (analyze_sentiment est st text).2)
    ∧ (∀ r st2e, analyze_sentiment_v2 est st2 text = some (r, st2e) →
        tripleLabelOK (1/10) (-(1/10)) r ∧ cacheLabelOK (1/10) (-(1/10)) st2e) := by
  constructor
  · cases h : st.cache.lookup (normKey text) with
    | some r =>
      rw [analyze_hit est st text r h]
      exact ⟨hc _ (lookup_mem h), hc⟩
    | none =>
      cases he : est text with
      | none =>
        rw [analyze_fallback est st text h he]
        exact ⟨fallback_labelOK, hc⟩
      | some base =>
        rw [analyze_miss est st text base h he]
        refine ⟨computeTriple_labelOK _ _ _ _ _ _ _ (by norm_num), ?_⟩
        intro e he2
        rcases List.mem_cons.mp he2 with rfl | hmem
        · exact computeTriple_labelOK _ _ _ _ _ _ _ (by norm_num)
        · exact hc _ hmem
  · intro r st2e hv
    cases h : st2.cache.lookup (normKey text) with
    | some r0 =>
      rw [analyze_v2_hit est st2 text r0 h] at hv
      obtain ⟨rfl, rfl⟩ : r0 = r ∧ st2 = st2e := by
        simpa [Prod.ext_iff] using hv
      exact ⟨hc2 _ (lookup_mem h), hc2⟩
    | none =>
      cases he : est text with
      | none => rw [analyze_v2_fail est st2 text h he] at hv; exact absurd hv (by simp)
      | some base =>
        rw [analyze_v2_miss est st2 text base h he] at hv
        obtain ⟨rfl, rfl⟩ : v2Triple base text = r ∧
            (⟨(normKey text, v2Triple base text) :: st2.cache⟩ : SentimentState) = st2e := by
          simpa [Prod.ext_iff] using hv
        refine ⟨computeTriple_labelOK _ _ _ _ _ _ _ (by norm_num), ?_⟩
        intro e he2
        rcases List.mem_cons.mp he2 with rfl | hmem
        · exact computeTriple_labelOK _ _ _ _ _ _ _ (by norm_num)
        · exact hc2 _ hmem

theorem C4_label_coherence_witness :
    (tripleLabelOK (15/100) (-(15/100)) (analyze_sentiment estC initState "x").1
      ∧ cacheLabelOK (15/100) (-(15/100)) (analyze_sentiment estC initState "x").2)
    ∧ (∀ r st2e, analyze_sentiment_v2 estC initState "x" = some (r, st2e) →
        tripleLabelOK (1/10) (-(1/10)) r ∧ cacheLabelOK (1/10) (-(1/10)) st2e) :=
  C4_label_coherence estC initState initState "x"
    (fun e he => absurd he (List.not_mem_nil e))
    (fun e he => absurd he (List.not_mem_nil e))

theorem demoTriple_rangeOK (base : ℚ) (text : String) : tripleRangeOK (demoTriple base text) := by
  obtain ⟨hs1, hs2⟩ := clamp_range
    (base + (boostCount disaster_positive text : ℚ) * (2/10)
      - (boostCount disaster_negative text : ℚ) * (3/10))
  obtain ⟨hcl, hcu⟩ := demoConf_bounds (demoTriple base text).1
  refine ⟨hs1, hs2, ?_, hcu⟩
  show (0 : ℚ) ≤ pyMin (pyAbs (demoTriple base text).1 + 2/10) 1
  linarith

theorem v2Triple_rangeOK (base : ℚ) (text : String) : tripleRangeOK (v2Triple base text) := by
  obtain ⟨hs1, hs2⟩ := clamp_range
    (base + (boostCount disaster_positive_v2 text : ℚ) * (2/10)
      - (boostCount disaster_negative_v2 text : ℚ) * (3/10))
  obtain ⟨hcl, hcu⟩ := v2Conf_bounds (v2Triple base text).1
  exact ⟨hs1, hs2, hcl, hcu⟩

theorem fallback_rangeOK : tripleRangeOK (-(2/10), "negative", 6/10) := by
  refine ⟨by norm_num, by norm_num, by norm_num, by norm_num⟩

/-- C6: on every path — cache hit (given an in-range cache), computed result,
and (in the demo variant) the exception fallback — the returned polarity lies
in [-1, 1] (clamped after the lexicon adjustment) and the returned confidence
lies in [0, 1]; both variants also keep every cached triple in range. -/
theorem C6_output_ranges (est : String → Option ℚ) (st st2 : SentimentState)
    (text : String) (hr : cacheRangeOK st) (hr2 : cacheRangeOK st2) :
    (tripleRangeOK (analyze_sentiment est st text).1
      ∧ cacheRangeOK (analyze_sentiment est st text).2)
    ∧ (∀ r st2e, analyze_sentiment_v2 est st2 text = some (r, st2e) →
        tripleRangeOK r ∧ cacheRangeOK st2e) := by
  constructor
  · cases h : st.cache.lookup (normKey text) with
    | some r =>
      rw [analyze_hit est st text r h]
      exact ⟨hr _ (lookup_mem h), hr⟩
    | none =>
      cases he : est text with
      | none =>
        rw [analyze_fallback est st text h he]
        exact ⟨fallback_rangeOK, hr⟩
      | some base =>
        rw [analyze_miss est st text base h he]
        refine ⟨demoTriple_rangeOK base text, ?_⟩
        intro e he2
        rcases List.mem_cons.mp he2 with rfl | hmem
        · exact demoTriple_rangeOK base text
        · exact hr _ hmem
  · intro r st2e hv
    cases h : st2.cache.lookup (normKey text) with
    | some r0 =>
      rw [analyze_v2_hit est st2 text r0 h] at hv
      obtain ⟨rfl, rfl⟩ : r0 = r ∧ st2 = st2e := by
        simpa [Prod.ext_iff] using hv
      exact ⟨hr2 _ (lookup_mem h), hr2⟩
    | none =>
      cases he : est text with
      | none => rw [analyze_v2_fail est st2 text h he] at hv; exact absurd hv (by simp)
      | some base =>
        rw [analyze_v2_miss est st2 text base h he] at hv
        obtain ⟨rfl, rfl⟩ : v2Triple base text = r ∧
            (⟨(normKey text, v2Triple base text) :: st2.cache⟩ : SentimentState) = st2e := by
          simpa [Prod.ext_iff] using hv
        refine ⟨v2Triple_rangeOK base text, ?_⟩
        intro e he2
        rcases List.mem_cons.mp he2 with rfl | hmem
        · exact v2Triple_rangeOK base text
        · exact hr2 _ hmem

theorem C6_output_ranges_witness :
    (tripleRangeOK (analyze_sentiment estC initState "x").1
      ∧ cacheRangeOK (analyze_sentiment estC initState "x").2)
    ∧ (∀ r st2e, analyze_sentiment_v2 estC initState "x" = some (r, st2e) →
        tripleRangeOK r ∧ cacheRangeOK st2e) :=
  C6_output_ranges estC initState initState "x"
    (fun e he => absurd he (List.not_mem_nil e))
    (fun e he => absurd he (List.not_mem_nil e))

/-- C10: the demo-variant scorer's confidence is at least 0.2 and never zero:
the success path computes `min(|polarity| + 0.2, 1.0)` (last conjunct), which
is at least 0.2, the failure fallback yields 0.6, and — the cache containing
only triples produced by those two paths — cache hits inherit the floor. -/
theorem C10_confidence_floor (est : String → Option ℚ) (st : SentimentState)
    (text : String) (hcf : cacheConfOK st) :
    1/5 ≤ (analyze_sentiment est st text).1.2.2
    ∧ (analyze_sentiment est st text).1.2.2 ≠ 0
    ∧ cacheConfOK (analyze_sentiment est st text).2
    ∧ (∀ base, st.cache.lookup (normKey text) = none → est text = some base →
        (analyze_sentiment est st text).1.2.2
          = pyMin (pyAbs (analyze_sentiment est st text).1.1 + 2/10) 1) := by
  have hmain : 1/5 ≤ (analyze_sentiment est st text).1.2.2
      ∧ cacheConfOK (analyze_sentiment est st text).2 := by
    cases h : st.cache.lookup (normKey text) with
    | some r =>
      rw [analyze_hit est st text r h]
      exact ⟨hcf _ (lookup_mem h), hcf⟩
    | none =>
      cases he : est text with
      | none =>
        rw [analyze_fallback est st text h he]
        exact ⟨by norm_num, hcf⟩
      | some base =>
        rw [analyze_miss est st text base h he]
        obtain ⟨hcl, -⟩ := demoConf_bounds (demoTriple base text).1
        refine ⟨hcl, ?_⟩
        intro e he2
        rcases List.mem_cons.mp he2 with rfl | hmem
        · exact hcl
        · exact hcf _ hmem
  refine ⟨hmain.1, fun h0 => by rw [h0] at hmain; linarith [hmain.1], hmain.2, ?_⟩
  intro base h1 h2
  rw [analyze_miss est st text base h1 h2]
  rfl

theorem C10_confidence_floor_witness :
    1/5 ≤ (analyze_sentiment estC initState "x").1.2.2
    ∧ (analyze_sentiment estC initState "x").1.2.2 ≠ 0
    ∧ cacheConfOK (analyze_sentiment estC initState "x").2
    ∧ (∀ base, initState.cache.lookup (normKey "x") = none → estC "x" = some base →
        (analyze_sentiment estC initState "x").1.2.2
          = pyMin (pyAbs (analyze_sentiment estC initState "x").1.1 + 2/10) 1) :=
  C10_confidence_floor estC initState "x" (fun e he => absurd he (List.not_mem_nil e))

/-- C5: for texts equal after lower-casing and trimming (`normKey`), once the
scorer has run on the first (and either hit the cache or the estimator
succeeded), the computed triple is in the cache under the normalized key of the
second text (stored before it was returned), and a second call — with any
estimator, so the result comes from the cache, not recomputation — returns the
identical triple and leaves the state unchanged. The second conjunct states the
same for the `web_scarper.py` variant, whose every returned triple is cached. -/
theorem C5_cache_law (est est2 : String → Option ℚ) (st st2 : SentimentState)
    (t t2 : String) (hnorm : normKey t = normKey t2)
    (hok : (st.cache.lookup (normKey t)).isSome = true ∨ (est t).isSome = true) :
    ((analyze_sentiment est st t).2.cache.lookup (normKey t2)
        = some (analyze_sentiment est st t).1
      ∧ analyze_sentiment est2 (analyze_sentiment est st t).2 t2 = analyze_sentiment est st t)
    ∧ (∀ r st2e, analyze_sentiment_v2 est st2 t = some (r, st2e) →
        st2e.cache.lookup (normKey t2) = some r
        ∧ analyze_sentiment_v2 est2 st2e t2 = some (r, st2e)) := by
  constructor
  · cases h : st.cache.lookup (normKey t) with
    | some r =>
      rw [analyze_hit est st t r h]
      have hl : st.cache.lookup (normKey t2) = some r := by rw [← hnorm]; exact h
      exact ⟨hl, analyze_hit est2 st t2 r hl⟩
    | none =>
      cases he : est t with
      | none =>
        rcases hok with hok | hok
        · rw [h] at hok; simp at hok
        · rw [he] at hok; simp at hok
      | some base =>
        rw [analyze_miss est st t base h he]
        have hl : ((⟨(normKey t, demoTriple base t) :: st.cache⟩ : SentimentState)).cache.lookup
            (normKey t2) = some (demoTriple base t) := by
          rw [← hnorm]
          exact List.lookup_cons_self
        exact ⟨hl, analyze_hit est2 _ t2 _ hl⟩
  · intro r st2e hv
    cases h : st2.cache.lookup (normKey t) with
    | some r0 =>
      rw [analyze_v2_hit est st2 t r0 h] at hv
      obtain ⟨h1, h2⟩ : r0 = r ∧ st2 = st2e := by
        simpa [Prod.ext_iff] using hv
      rw [← h1, ← h2]
      have hl : st2.cache.lookup (normKey t2) = some r0 := by rw [← hnorm]; exact h
      exact ⟨hl, analyze_v2_hit est2 st2 t2 r0 hl⟩
    | none =>
      cases he : est t with
      | none => rw [analyze_v2_fail est st2 t h he] at hv; exact absurd hv (by simp)
      | some base =>
        rw [analyze_v2_miss est st2 t base h he] at hv
        obtain ⟨h1, h2⟩ : v2Triple base t = r ∧
            (⟨(normKey t, v2Triple base t) :: st2.cache⟩ : SentimentState) = st2e := by
          simpa [Prod.ext_iff] using hv
        rw [← h1, ← h2]
        have hl : ((⟨(normKey t, v2Triple base t) :: st2.cache⟩ : SentimentState)).cache.lookup
            (normKey t2) = some (v2Triple base t) := by
          rw [← hnorm]
          exact List.lookup_cons_self
        exact ⟨hl, analyze_v2_hit est2 _ t2 _ hl⟩

theorem C5_cache_law_witness :
    ((analyze_sentiment estC initState "Tsunami ").2.cache.lookup (normKey "tsunami")
        = some (analyze_sentiment estC initState "Tsunami ").1
      ∧ analyze_sentiment estC2 (analyze_sentiment estC initState "Tsunami ").2 "tsunami"
          = analyze_sentiment estC initState "Tsunami ")
    ∧ (∀ r st2e, analyze_sentiment_v2 estC initState "Tsunami " = some (r, st2e) →
        st2e.cache.lookup (normKey "tsunami") = some r
        ∧ analyze_sentiment_v2 estC2 st2e "tsunami" = some (r, st2e)) :=
  C5_cache_law estC estC2 initState initState "Tsunami " "tsunami"
    (by with_unfolding_all decide) (Or.inr rfl)

/-- C7 (amended): when the estimator raises on an uncached text, the
`web_scraper.py` scorer returns the fixed fallback triple
`(-0.2, "negative", 0.6)` with the state unchanged instead of propagating the
failure; the `web_scarper.py` variant — which has no try/except — propagates
the failure instead (result `none`). -/
theorem C7_estimator_failure (est : String → Option ℚ) (st st2 : SentimentState)
    (text : String) (hm : st.cache.lookup (normKey text) = none)
    (hm2 : st2.cache.lookup (normKey text) = none) (hf : est text = none) :
    analyze_sentiment est st text = ((-(2/10), "negative", 6/10), st)
    ∧ analyze_sentiment_v2 est st2 text = none :=
  ⟨analyze_fallback est st text hm hf, analyze_v2_fail est st2 text hm2 hf⟩

theorem C7_estimator_failure_witness :
    analyze_sentiment estFail initState "oops" = ((-(2/10), "negative", 6/10), initState)
    ∧ analyze_sentiment_v2 estFail initState "oops" = none :=
  C7_estimator_failure estFail initState initState "oops" rfl rfl rfl

/-- C7 counterexample: on a concrete uncached input whose estimator call
raises, the `web_scarper.py` scorer propagates the failure (`none`) — it does
not return the fallback triple the claim requires, while the `web_scraper.py`
variant does. -/
theorem C7_propagation_counterexample :
    analyze_sentiment_v2 estFail initState "oops" = none
    ∧ analyze_sentiment estFail initState "oops" = ((-(2/10), "negative", 6/10), initState)
    ∧ (none : Option (SentimentTriple × SentimentState))
        ≠ some (((-(2/10), "negative", 6/10) : SentimentTriple), initState) := by
  exact ⟨rfl, rfl, by simp⟩

/-- C8: the aggregator maps the empty corpus to the distinguished no-data
value (`{"error": ...}` in the source) rather than raising or touching a
non-existent record, and every non-empty corpus to a full report; the two
results are distinct values, so callers can branch on them. -/
theorem C8_empty_report :
    generate_sentiment_report [] = ReportResult.noData
    ∧ (∀ (t0 : OceanHazardTweet) (rest : List OceanHazardTweet),
        generate_sentiment_report (t0 :: rest) = ReportResult.report (buildReport t0 rest))
    ∧ (∀ (t0 : OceanHazardTweet) (rest : List OceanHazardTweet),
        ReportResult.noData ≠ ReportResult.report (buildReport t0 rest)) :=
  ⟨rfl, fun _ _ => rfl, fun _ _ h => ReportResult.noConfusion h⟩

theorem mem_firstDedup (a : String) : ∀ l : List String, a ∈ firstDedup l ↔ a ∈ l
  | [] => by simp [firstDedup]
  | b :: l => by
    simp only [firstDedup, List.mem_cons, List.mem_filter, mem_firstDedup a l, bne_iff_ne,
      ne_eq]
    by_cases hab : a = b
    · simp [hab]
    · simp [hab]

theorem nodup_firstDedup : ∀ l : List String, (firstDedup l).Nodup
  | [] => by simp [firstDedup]
  | b :: l => by
    simp only [firstDedup, List.nodup_cons]
    constructor
    · intro hmem
      simpa using (List.mem_filter.mp hmem).2
    · exact (List.filter_sublist _).nodup (nodup_firstDedup l)

theorem lookup_map_self {β : Type} (f : String → β) (lab : String) :
    ∀ m : List String,
      (m.map fun k => (k, f k)).lookup lab = if lab ∈ m then some (f lab) else none
  | [] => by simp
  | a :: m => by
    by_cases hab : lab = a
    · subst hab
      simp
    · rw [List.map_cons, List.lookup_cons]
      have hbeq : (lab == a) = false := beq_eq_false_iff_ne.mpr hab
      rw [hbeq]
      simp only [lookup_map_self f lab m, List.mem_cons]
      by_cases hm : lab ∈ m
      · simp [hm]
      · simp [hm, hab]

theorem lookup_counter (l : List String) (lab : String) :
    (counter l).lookup lab = if lab ∈ l then some (l.count lab) else none := by
  unfold counter
  rw [lookup_map_self]
  simp [mem_firstDedup lab l]

/-- C9 counterexample: for the singleton corpus `[demoTweet]` (one
neutral-labelled post) the report's sentiment-label distribution is
`[("neutral", 1)]` — built from `Counter`, it has no `"positive"` or
`"negative"` entry, so the distribution does not contain all three labels when
a label's count is zero, contrary to the claim. -/
theorem C9_zero_count_label_missing :
    generate_sentiment_report [demoTweet] = ReportResult.report (buildReport demoTweet [])
    ∧ (buildReport demoTweet []).summary.sentiment_distribution = [("neutral", 1)]
    ∧ "positive" ∉ ((buildReport demoTweet []).summary.sentiment_distribution.map Prod.fst)
    ∧ "negative" ∉ ((buildReport demoTweet []).summary.sentiment_distribution.map Prod.fst) :=
  ⟨rfl, by decide, by decide, by decide⟩

/-- C9 (amended, `web_scraper.py` report): for every non-empty input, the
report's sentiment-label distribution contains an entry exactly for each label
occurring in the input (zero-count labels are omitted) carrying that label's
occurrence count, and the per-category breakdown contains, for every category
present in the input, exactly the stats of that category's posts: the post
count, their sentiment distribution, the mean sentiment score rounded to 3
decimals, and the mean likes, retweets and replies each rounded to 1 decimal. -/
theorem C9_report_contents (t0 : OceanHazardTweet) (rest : List OceanHazardTweet) :
    generate_sentiment_report (t0 :: rest) = ReportResult.report (buildReport t0 rest)
    ∧ (∀ lab : String,
        (buildReport t0 rest).summary.sentiment_distribution.lookup lab
          = if lab ∈ (t0 :: rest).map OceanHazardTweet.sentiment_label
            then some (((t0 :: rest).map OceanHazardTweet.sentiment_label).count lab)
            else none)
    ∧ (∀ c : String,
        (buildReport t0 rest).by_hazard_category.lookup c
          = if c ∈ (t0 :: rest).map OceanHazardTweet.hazard_category
            then some (categoryStats ((t0 :: rest).filter fun t => t.hazard_category == c))
            else none)
    ∧ (∀ ts : List OceanHazardTweet,
        (categoryStats ts).total_tweets = ts.length
        ∧ (categoryStats ts).avg_sentiment_score
            = roundTo 3 ((ts.map OceanHazardTweet.sentiment_score).sum / ts.length)
        ∧ (categoryStats ts).avg_engagement.likes
            = roundTo 1 ((ts.map fun t => (t.likes : ℚ)).sum / ts.length)
        ∧ (categoryStats ts).avg_engagement.retweets
            = roundTo 1 ((ts.map fun t => (t.retweets : ℚ)).sum / ts.length)
        ∧ (categoryStats ts).avg_engagement.replies
            = roundTo 1 ((ts.map fun t => (t.replies : ℚ)).sum / ts.length)
        ∧ ∀ lab : String,
            (categoryStats ts).sentiment_distribution.lookup lab
              = if lab ∈ ts.map OceanHazardTweet.sentiment_label
                then some ((ts.map OceanHazardTweet.sentiment_label).count lab)
                else none) := by
  refine ⟨rfl, ?_, ?_, ?_⟩
  · intro lab
    exact lookup_counter _ lab
  · intro c
    show ((firstDedup ((t0 :: rest).map OceanHazardTweet.hazard_category)).map fun category =>
        (category, categoryStats ((t0 :: rest).filter fun t => t.hazard_category == category))).lookup c
      = _
    rw [lookup_map_self (fun category =>
      categoryStats ((t0 :: rest).filter fun t => t.hazard_category == category)) c]
    simp [mem_firstDedup c]
  · intro ts
    exact ⟨rfl, rfl, rfl, rfl, rfl, fun lab => lookup_counter _ lab⟩
